import Mathlib

/-!
Shallow embedding of `src/server.js` from the `fire_event_server_mongo`
repository: an Express + Mongoose server that ingests fire-detection events,
stores them in a Mongo `fire_events` collection, optionally fires a WhatsApp
notification, and serves the most recent events back.

JavaScript values delivered by the JSON body parser are modelled by `JsVal`.
Numbers are rationals (JSON has no NaN/Infinity literals); the NaN results of
JS number coercion are modelled by `Option ℚ` with `none` standing for NaN.
The Mongo collection is modelled as a list of `FireEventRecord`s; the wall
clock, the outcome of the store write and the outcome of the outbound
WhatsApp HTTP call are explicit parameters of the handler functions.
-/

namespace FireMongo

/-- JavaScript values as seen by the request handlers: the possible results
of `express.json()` body parsing, plus `undefined` for absent properties. -/
inductive JsVal : Type where
  | undefined : JsVal
  | null : JsVal
  | bool : Bool → JsVal
  | num : ℚ → JsVal
  | str : String → JsVal
  | arr : List JsVal → JsVal
  | obj : List (String × JsVal) → JsVal
deriving Repr

/-- JavaScript truthiness, `if (v)`.  JSON cannot deliver `NaN`, and `-0` is
identified with `0` by the rational model. -/
def JsVal.truthy : JsVal → Bool
  | .undefined => false
  | .null => false
  | .bool b => b
  | .num q => decide (q ≠ 0)
  | .str s => decide (s ≠ "")
  | .arr _ => true
  | .obj _ => true

/-- `typeof v === "string"`. -/
def JsVal.isString : JsVal → Bool
  | .str _ => true
  | _ => false

/-- `typeof v === "object"`: true for plain objects, arrays and `null`. -/
def JsVal.typeofObject : JsVal → Bool
  | .null => true
  | .arr _ => true
  | .obj _ => true
  | _ => false

/-- Property access `v.k`.  On objects the first binding wins (keys are
unique after JSON parsing); on every other value the keys used by the server
are absent, giving `undefined`.  A `null`/`undefined` base never occurs in
the handler: the base is `req.body || {}` or the optional-chained `best?.`. -/
def JsVal.getField : JsVal → String → JsVal
  | .obj fs, k => (fs.lookup k).getD .undefined
  | _, _ => .undefined

/-- The whitespace characters stripped by `Number(string)` (the common ones:
space, tab, line feed, carriage return, vertical tab, form feed). -/
def isJsSpace (c : Char) : Bool :=
  c = ' ' || c = '\t' || c = '\n' || c = '\r' || c = Char.ofNat 11 || c = Char.ofNat 12

/-- Numeric value of a digit string (empty list reads as 0, callers guard
emptiness where JS does). -/
def digitsVal (cs : List Char) : ℕ :=
  cs.foldl (fun a c => 10 * a + (c.toNat - 48)) 0

/-- Unsigned decimal literal accepted by `Number(string)`: `digits`,
`digits.digits`, `digits.` or `.digits`.  Exponent, hex/octal/binary and
`Infinity` forms are outside the model's scope (no claim exercises them). -/
def parseUnsigned (cs : List Char) : Option ℚ :=
  match cs.span Char.isDigit with
  | (ds, []) => if ds.isEmpty then none else some (digitsVal ds)
  | (ds, c :: fs) =>
      if c = '.' ∧ fs.all Char.isDigit ∧ ¬(ds.isEmpty ∧ fs.isEmpty) then
        some ((digitsVal ds : ℚ) + (digitsVal fs : ℚ) / ((10 : ℚ) ^ fs.length))
      else none

/-- `Number(string)` on a whitespace-trimmed nonempty string: optional sign,
then an unsigned decimal literal; anything else is NaN. -/
def parseSigned (cs : List Char) : Option ℚ :=
  match cs with
  | '+' :: rest => parseUnsigned rest
  | '-' :: rest => (parseUnsigned rest).map (fun q => -q)
  | _ => parseUnsigned cs

/-- Strip JS whitespace from both ends. -/
def jsTrim (cs : List Char) : List Char :=
  ((cs.dropWhile isJsSpace).reverse.dropWhile isJsSpace).reverse

/-- JS `Number(v)` coercion; `none` models NaN.  A one-element array coerces
through its single element (via `String([v])`), matching JS for the values
that can appear here. -/
def JsVal.toNumber : JsVal → Option ℚ
  | .undefined => none
  | .null => some 0
  | .bool b => some (if b then 1 else 0)
  | .num q => some q
  | .str s =>
      let t := jsTrim s.toList
      if t.isEmpty then some 0 else parseSigned t
  | .arr [] => some 0
  | .arr [.undefined] => some 0
  | .arr [v] => v.toNumber
  | .arr (_ :: _ :: _) => none
  | .obj _ => none

/-- `Number.prototype.toFixed(2)` on the rational model: round half away
from zero at two decimals.  The exact-binary-double quirks of IEEE `toFixed`
and the exponential form for huge magnitudes are outside the model. -/
def toFixed2 (q : ℚ) : String :=
  let cents : ℕ := (round (|q| * 100)).toNat
  (if q < 0 then "-" else "") ++ toString (cents / 100) ++ "." ++
    (if cents % 100 < 10 then "0" else "") ++ toString (cents % 100)

/-- `toFixed(2)` lifted to the NaN-aware coercion result: `NaN.toFixed(2)`
evaluates to the string `"NaN"`. -/
def toFixed2Opt : Option ℚ → String
  | none => "NaN"
  | some q => toFixed2 q

/-- Decimal rendering of a rational with terminating decimal expansion
(every number arriving through JSON is a binary double, hence terminating);
used for JS template-string interpolation of numbers. -/
def ratDecString (q : ℚ) : String :=
  if q.den = 1 then toString q.num
  else
    match (List.range 40).find? (fun k => (10 : ℕ) ^ k % q.den = 0) with
    | some k =>
        let scaled : ℕ := ((|q.num| : ℤ) * (((10 : ℕ) ^ k / q.den : ℕ) : ℤ)).toNat
        let frStr := toString (scaled % 10 ^ k)
        (if q < 0 then "-" else "") ++ toString (scaled / 10 ^ k) ++ "." ++
          String.mk (List.replicate (k - frStr.length) '0') ++ frStr
    | none => "NaN"

mutual

/-- JS `String(v)` as used by template-literal interpolation.  Array elements
render through `Array.prototype.join`, where `null` and `undefined` become
empty strings. -/
def JsVal.toJsString : JsVal → String
  | .undefined => "undefined"
  | .null => "null"
  | .bool b => if b then "true" else "false"
  | .num q => ratDecString q
  | .str s => s
  | .arr xs => String.intercalate "," (jsArrElems xs)
  | .obj _ => "[object Object]"

/-- Rendering of array elements for `Array.prototype.join`. -/
def jsArrElems : List JsVal → List String
  | [] => []
  | .null :: vs => "" :: jsArrElems vs
  | .undefined :: vs => "" :: jsArrElems vs
  | v :: vs => v.toJsString :: jsArrElems vs

end

/-- Environment configuration read once at startup (`process.env.* || ""`). -/
structure Config where
  apiKey : String
  waPhoneNumberId : String
  waAccessToken : String
  waTo : String
deriving Repr

/-- The pieces of an HTTP request the handlers inspect: the (lower-cased)
`authorization`, `x-forwarded-for` and `user-agent` headers, the transport
peer address `req.socket.remoteAddress`, the parsed JSON body, and the
`limit` query parameter of the list endpoint (`none` when absent). -/
structure Request where
  authorization : Option String
  xForwardedFor : Option String
  userAgent : Option String
  remoteAddress : Option String
  body : JsVal
  limitParam : Option String
deriving Repr

/-- A stored document of the `fire_events` collection: the event fields of
`fireEventSchema` plus the store-assigned `id` (Mongo `_id`, modelled as the
insertion index) and the schema-defaulted `received_at` (`Date.now` at insert
time, modelled as a natural-number clock reading). -/
structure FireEventRecord where
  id : ℕ
  received_at : ℕ
  timestamp : String
  score : String
  best : JsVal
  snapshot_filename : String
  image_url : String
  cloudinary_public_id : String
  ip : String
  user_agent : String
deriving Repr

/-- `requireAuth` (src/server.js lines 47-53): with no `API_KEY` every
request passes; otherwise the Bearer token of the `authorization` header
must equal the key.  Returns `true` when the guarded handler runs, `false`
when the middleware answers 401 itself. -/
def requireAuth (apiKey : String) (authorization : Option String) : Bool :=
  if apiKey = "" then true
  else
    -- `auth.startsWith("Bearer ")` then `auth.slice(7)`: the 7-character
    -- ASCII prefix test and the suffix from position 7, taken on the
    -- character sequence of the header value.
    let auth := (authorization.getD "").toList
    let token := if auth.take 7 = "Bearer ".toList then auth.drop 7 else []
    token = apiKey.toList

/-- JS `a || b` for an optional header value against a string default. -/
def strOr (a : Option String) (b : String) : String :=
  match a with
  | some s => if s = "" then b else s
  | none => b

/-- The normalized event object built by the POST handler (src/server.js
lines 97-116), before the store assigns `id` and `received_at`.  `nowIso`
stands for the value of `new Date().toISOString()` taken while handling the
request. -/
structure EventInput where
  timestamp : String
  score : String
  best : JsVal
  snapshot_filename : String
  image_url : String
  cloudinary_public_id : String
  ip : String
  user_agent : String
deriving Repr

/-- `typeof v === "string" ? v : ""` — the defaulting rule for the plain
string fields. -/
def strOrEmpty (v : JsVal) : String :=
  match v with
  | .str s => s
  | _ => ""

/-- `typeof body.best === "object" && body.best !== null ? body.best : null`:
objects and arrays pass (`typeof` is "object" for both), everything else —
including `null` itself — is replaced by `null`. -/
def normBest (v : JsVal) : JsVal :=
  match v with
  | .obj fs => .obj fs
  | .arr xs => .arr xs
  | _ => .null

/-- `const body = req.body || {}` (src/server.js line 97). -/
def reqBody (req : Request) : JsVal :=
  if req.body.truthy then req.body else .obj []

/-- Lines 97-116 of src/server.js: `const body = req.body || {}` followed by
the per-field normalization and the construction of `event`. -/
def buildEvent (req : Request) (nowIso : String) : EventInput :=
  let body := reqBody req
  { timestamp :=
      match body.getField "timestamp" with
      | .str s => s
      | _ => nowIso
    score := strOrEmpty (body.getField "score")
    best := normBest (body.getField "best")
    snapshot_filename := strOrEmpty (body.getField "snapshot_filename")
    image_url := strOrEmpty (body.getField "image_url")
    cloudinary_public_id := strOrEmpty (body.getField "cloudinary_public_id")
    ip := strOr req.xForwardedFor (strOr req.remoteAddress "")
    user_agent := strOr req.userAgent "" }

/-- `FireEvent.create(event)` on a successful write: Mongo assigns `_id` and
the schema default fills `received_at` with the current server time.  The
collection is the list of documents in insertion order. -/
def insertEvent (store : List FireEventRecord) (e : EventInput) (now : ℕ) :
    FireEventRecord × List FireEventRecord :=
  let r : FireEventRecord :=
    { id := store.length
      received_at := now
      timestamp := e.timestamp
      score := e.score
      best := e.best
      snapshot_filename := e.snapshot_filename
      image_url := e.image_url
      cloudinary_public_id := e.cloudinary_public_id
      ip := e.ip
      user_agent := e.user_agent }
  (r, store ++ [r])

/-- The WhatsApp message template (src/server.js lines 122-128), built from
the handler's normalized variables.  `best?.label || "-"` interpolates the
label when it is truthy and falls back to `"-"`; `best?.conf ? Number(best.conf).toFixed(2) : "-"`
formats the conf only when it is truthy, where a truthy non-numeric conf
renders as `"NaN"`; the image line takes the first truthy of `image_url`,
`snapshot_filename`, `"-"`. -/
def msgText (timestamp score : String) (best : JsVal)
    (image_url snapshot_filename : String) : String :=
  "🔥 FIRE ALERT!\n" ++
  "Time: " ++ timestamp ++ "\n" ++
  "Score: " ++ score ++ "\n" ++
  "Label: " ++
    (let l := best.getField "label"
     if l.truthy then l.toJsString else "-") ++ "\n" ++
  "Conf: " ++
    (let c := best.getField "conf"
     if c.truthy then toFixed2Opt c.toNumber else "-") ++ "\n" ++
  "Image: " ++
    (if image_url ≠ "" then image_url
     else if snapshot_filename ≠ "" then snapshot_filename else "-")

/-- Outcome of the outbound `fetch` to the WhatsApp Cloud API, seen from the
caller: the network call may reject, `res.json()` may reject on a malformed
body, or a response arrives with `res.ok` and its parsed data (modelled by
its serialized form). -/
inductive WaOutcome : Type where
  | networkError : String → WaOutcome
  | badJson : String → WaOutcome
  | response : Bool → String → WaOutcome
deriving Repr

/-- Result of `sendWhatsAppAlert` as observed by its caller: fulfilled with
`skipped`/data, or rejected with an error message. -/
inductive WaResult : Type where
  | skipped : WaResult
  | success : String → WaResult
  | failure : String → WaResult
deriving Repr

/-- `sendWhatsAppAlert` (src/server.js lines 56-84): silently skips when the
sender id, the access token or the destination is missing; otherwise performs
the HTTP call, throwing on rejection or on a non-ok status (the thrown
message is `JSON.stringify(data)`, i.e. the serialized response data). -/
def sendWhatsAppAlert (cfg : Config) (dest text : String) (outcome : WaOutcome) :
    WaResult :=
  if cfg.waPhoneNumberId = "" || cfg.waAccessToken = "" || dest = "" then .skipped
  else
    match outcome with
    | .networkError m => .failure m
    | .badJson m => .failure m
    | .response ok data => if ok then .success data else .failure data
  -- `text` only affects the request body sent over the wire, not the
  -- caller-visible result shape


/-- The create-event response (src/server.js lines 96-143).  `dispatched`
records the message text handed to `sendWhatsAppAlert` (`none` when the
dispatch was not started), and `log` the handler's own console lines. -/
structure PostResult where
  status : ℕ
  ok : Bool
  message : String
  error : String
  details : String
  event : Option FireEventRecord
  store : List FireEventRecord
  dispatched : Option String
  log : List String
deriving Repr

/-- `POST /api/fire-events`: auth gate, normalization, store write, and the
fire-and-forget WhatsApp dispatch.  `storeErr` is the outcome of
`FireEvent.create` (`some m` meaning the write threw with `String(e) = m`);
`nowIso`/`now` are the server clock readings used for the timestamp default
and for `received_at`. -/
def handlePost (cfg : Config) (req : Request) (nowIso : String) (now : ℕ)
    (store : List FireEventRecord) (storeErr : Option String) : PostResult :=
  if ¬ requireAuth cfg.apiKey req.authorization then
    { status := 401, ok := false, message := "", error := "Unauthorized"
      details := "", event := none, store := store, dispatched := none
      log := [] }
  else
    let e := buildEvent req nowIso
    match storeErr with
    | some m =>
        { status := 500, ok := false, message := ""
          error := "Failed to store event", details := m, event := none
          store := store, dispatched := none, log := [] }
    | none =>
        let saved := (insertEvent store e now).1
        let text := msgText e.timestamp e.score e.best e.image_url e.snapshot_filename
        { status := 200, ok := true, message := "Event stored", error := ""
          details := "", event := some saved
          store := (insertEvent store e now).2
          dispatched := if cfg.waTo ≠ "" then some text else none
          log := if cfg.waTo ≠ "" then []
                 else ["⚠️ WA_TO not set, WhatsApp skipped."] }

/-- The line logged by the `.then`/`.catch` continuation attached to the
dispatched `sendWhatsAppAlert` promise (src/server.js lines 132-134); the
rejection is consumed here and can reach nothing else. -/
def dispatchLog (cfg : Config) (text : String) (outcome : WaOutcome) : String :=
  match sendWhatsAppAlert cfg cfg.waTo text outcome with
  | .failure m => "❌ WhatsApp failed: " ++ m
  | .skipped => "✅ WhatsApp sent: skipped"
  | .success d => "✅ WhatsApp sent: " ++ d

/-- A whole create-event exchange including the eventual completion of the
notification: the response/store pair is produced by `handlePost` alone, and
the notification outcome only ever extends the log. -/
def fullPostStep (cfg : Config) (req : Request) (nowIso : String) (now : ℕ)
    (store : List FireEventRecord) (storeErr : Option String)
    (outcome : WaOutcome) : PostResult × List String :=
  let r := handlePost cfg req nowIso now store storeErr
  match r.dispatched with
  | some text => (r, r.log ++ [dispatchLog cfg text outcome])
  | none => (r, r.log)

/-- `Math.max(1, Math.min(200, Number(req.query.limit || 50)))`
(src/server.js line 147); `none` models NaN, which both `Math.min` and
`Math.max` propagate. -/
def effectiveLimit (limitParam : Option String) : Option ℚ :=
  let raw : JsVal := match limitParam with
    | none => .undefined
    | some s => .str s
  let chosen : JsVal := if raw.truthy then raw else .num 50
  (chosen.toNumber).map (fun q => max 1 (min 200 q))

/-- The descending `received_at` comparison used by
`.sort({ received_at: -1 })`. -/
def recvGe (a b : FireEventRecord) : Prop := b.received_at ≤ a.received_at

instance : DecidableRel recvGe := fun a b => Nat.decLe b.received_at a.received_at

instance : IsTotal FireEventRecord recvGe := ⟨fun a b => le_total b.received_at a.received_at⟩

instance : IsTrans FireEventRecord recvGe := ⟨fun _ _ _ h h2 => le_trans h2 h⟩

/-- `FireEvent.find().sort({received_at: -1}).limit(limit)` for an integer
`limit`: the collection ordered by `received_at` descending, truncated to
`limit` documents (Mongo treats `limit(0)` as "no limit"; the handler's
clamping makes that branch unreachable).  The behaviour of a NaN or
fractional limit lives in the Mongo driver, outside this source, and is not
modelled. -/
def findRecent (store : List FireEventRecord) (limit : ℕ) : List FireEventRecord :=
  let sorted := store.insertionSort recvGe
  if limit = 0 then sorted else sorted.take limit

/-- The list-events response (src/server.js lines 146-154). -/
structure GetResult where
  status : ℕ
  ok : Bool
  count : ℕ
  events : List FireEventRecord
  error : String
  details : String
deriving Repr

/-- `GET /api/fire-events` for an integer effective limit: auth gate, then
the sorted, truncated read; `storeErr` is the outcome of the find query. -/
def handleGet (cfg : Config) (req : Request) (store : List FireEventRecord)
    (storeErr : Option String) (limit : ℕ) : GetResult :=
  if ¬ requireAuth cfg.apiKey req.authorization then
    { status := 401, ok := false, count := 0, events := []
      error := "Unauthorized", details := "" }
  else
    match storeErr with
    | some m =>
        { status := 500, ok := false, count := 0, events := []
          error := "Failed to read events", details := m }
    | none =>
        let events := findRecent store limit
        { status := 200, ok := true, count := events.length, events := events
          error := "", details := "" }

/-! ### Spec-side definitions

The following two definitions are written from the specification's words, not
from the source; they exist to be compared with the source-derived
`effectiveLimit` and `msgText`. -/

/-- The list-endpoint limit rule as the specification words it: "clamped to
the inclusive range [1, 200], defaulting to 50 when absent or non-numeric". -/
def effectiveLimitSpec (limitParam : Option String) : Option ℚ :=
  match limitParam with
  | none => some 50
  | some s =>
      match (JsVal.str s).toNumber with
      | none => some 50
      | some q => some (max 1 (min 200 q))

/-- The notification message as the specification words it: label embedded
from `best` "or a placeholder if absent", conf "formatted to two decimal
places (or a placeholder if absent/non-numeric)", image "preferring
`image_url`, falling back to `snapshot_filename`, then a placeholder". -/
def msgTextSpec (timestamp score : String) (best : JsVal)
    (image_url snapshot_filename : String) : String :=
  "🔥 FIRE ALERT!\n" ++
  "Time: " ++ timestamp ++ "\n" ++
  "Score: " ++ score ++ "\n" ++
  "Label: " ++
    (match best.getField "label" with
     | .undefined => "-"
     | v => v.toJsString) ++ "\n" ++
  "Conf: " ++
    (match (best.getField "conf").toNumber with
     | none => "-"
     | some q => toFixed2 q) ++ "\n" ++
  "Image: " ++
    (if image_url ≠ "" then image_url
     else if snapshot_filename ≠ "" then snapshot_filename else "-")

/-- The message rule the code actually implements (the amended form of the
claim): label and conf are rendered only when *truthy* — so a present but
falsy `label` (empty string, 0) and a falsy `conf` (in particular the
numeric `conf = 0`) fall back to the placeholder, while a truthy but
non-numeric `conf` renders as `"NaN"`. -/
def msgTextAmended (timestamp score : String) (best : JsVal)
    (image_url snapshot_filename : String) : String :=
  "🔥 FIRE ALERT!\n" ++
  "Time: " ++ timestamp ++ "\n" ++
  "Score: " ++ score ++ "\n" ++
  "Label: " ++
    (if (best.getField "label").truthy then (best.getField "label").toJsString
     else "-") ++ "\n" ++
  "Conf: " ++
    (if (best.getField "conf").truthy then
       match (best.getField "conf").toNumber with
       | some q => toFixed2 q
       | none => "NaN"
     else "-") ++ "\n" ++
  "Image: " ++
    (if image_url ≠ "" then image_url
     else if snapshot_filename ≠ "" then snapshot_filename else "-")

/-! ### Helper lemmas -/

/-- The six body keys the POST handler reads. -/
def sixKeys : List String :=
  ["timestamp", "score", "best", "snapshot_filename", "image_url",
   "cloudinary_public_id"]

lemma getField_obj_cons (k a : String) (v : JsVal) (fs : List (String × JsVal)) :
    (JsVal.obj ((k, v) :: fs)).getField a =
      if k = a then v else (JsVal.obj fs).getField a := by
  by_cases h : k = a
  · simp [JsVal.getField, List.lookup_cons, h]
  · simp [JsVal.getField, List.lookup_cons, h, beq_false_of_ne (Ne.symm h)]

lemma strOrEmpty_of_not_string {v : JsVal} (h : v.isString = false) :
    strOrEmpty v = "" := by
  cases v <;> simp_all [JsVal.isString, strOrEmpty]

lemma normBest_of_object {v : JsVal} (h1 : v.typeofObject = true)
    (h2 : v ≠ .null) : normBest v = v := by
  cases v <;> simp_all [JsVal.typeofObject, normBest]

lemma normBest_of_not_object {v : JsVal}
    (h : ¬(v.typeofObject = true ∧ v ≠ .null)) : normBest v = .null := by
  cases v <;> simp_all [JsVal.typeofObject, normBest]

lemma buildEvent_ext {req : Request} {nowIso : String}
    {fs gs : List (String × JsVal)}
    (h : ∀ k ∈ sixKeys, (JsVal.obj fs).getField k = (JsVal.obj gs).getField k) :
    buildEvent { req with body := .obj fs } nowIso =
      buildEvent { req with body := .obj gs } nowIso := by
  have h1 := h "timestamp" (by simp [sixKeys])
  have h2 := h "score" (by simp [sixKeys])
  have h3 := h "best" (by simp [sixKeys])
  have h4 := h "snapshot_filename" (by simp [sixKeys])
  have h5 := h "image_url" (by simp [sixKeys])
  have h6 := h "cloudinary_public_id" (by simp [sixKeys])
  simp [buildEvent, reqBody, JsVal.truthy, h1, h2, h3, h4, h5, h6]

lemma handlePost_event_some {cfg : Config} {req : Request} {nowIso : String}
    {now : ℕ} {store : List FireEventRecord} {storeErr : Option String}
    {r : FireEventRecord}
    (h : (handlePost cfg req nowIso now store storeErr).event = some r) :
    r = (insertEvent store (buildEvent req nowIso) now).1 := by
  by_cases hA : requireAuth cfg.apiKey req.authorization = true
  · cases storeErr with
    | some m => simp [handlePost, hA] at h
    | none =>
        simp [handlePost, hA] at h
        exact h.symm
  · simp [handlePost, hA] at h

lemma requireAuth_iff {key : String} (hd : Option String) (hk : key ≠ "") :
    requireAuth key hd = true ↔ hd = some ("Bearer " ++ key) := by
  unfold requireAuth
  rw [if_neg hk, decide_eq_true_iff]
  constructor
  · intro h
    by_cases hs : ((hd.getD "").toList.take 7 = "Bearer ".toList)
    · rw [if_pos hs] at h
      have hfull : (hd.getD "").toList = "Bearer ".toList ++ key.toList := by
        conv_lhs => rw [← List.take_append_drop 7 (hd.getD "").toList]
        rw [hs, h]
      cases hd with
      | none => simp [String.toList] at hfull
      | some s =>
          have hdata : s = "Bearer " ++ key := by
            apply String.ext
            simpa [String.toList, String.data_append] using hfull
          simp [hdata]
    · rw [if_neg hs] at h
      exact absurd (String.ext h.symm) hk
  · intro h
    subst h
    have hdata : ("Bearer " ++ key).toList = "Bearer ".toList ++ key.toList := by
      simp [String.toList, String.data_append]
    simp only [Option.getD_some, hdata]
    rw [List.take_left' (by rfl), if_pos rfl, List.drop_left' (by rfl)]

/-! ### Claims -/

/-- C1: for every request to a protected route, if no auth secret is
configured the request passes regardless of the Authorization header; if a
secret is configured the request proceeds exactly when the header is
`Bearer <secret>`; on mismatch or absence both protected handlers answer
401 `{ok:false, error:"Unauthorized"}` and short-circuit with no side
effects — the store is untouched, no record stored, no dispatch started. -/
theorem claim_C1 (cfg : Config) (req : Request) (nowIso : String) (now : ℕ)
    (store : List FireEventRecord) (storeErr : Option String) (limit : ℕ) :
    (cfg.apiKey = "" → requireAuth cfg.apiKey req.authorization = true)
    ∧ (cfg.apiKey ≠ "" →
        (requireAuth cfg.apiKey req.authorization = true ↔
          req.authorization = some ("Bearer " ++ cfg.apiKey)))
    ∧ (requireAuth cfg.apiKey req.authorization = false →
        handlePost cfg req nowIso now store storeErr =
          { status := 401, ok := false, message := "", error := "Unauthorized"
            details := "", event := none, store := store, dispatched := none
            log := [] }
        ∧ handleGet cfg req store storeErr limit =
          { status := 401, ok := false, count := 0, events := []
            error := "Unauthorized", details := "" }) := by
  refine ⟨fun h => by simp [requireAuth, h],
          fun hk => requireAuth_iff req.authorization hk,
          fun hf => ⟨by simp [handlePost, hf], by simp [handleGet, hf]⟩⟩

/-- Witness for C1: with secret `"abc"`, the header `Bearer abc` passes,
`Bearer wrong` is rejected and the rejected POST stores nothing. -/
theorem claim_C1_witness :
    requireAuth "" none = true
    ∧ requireAuth "abc" (some "Bearer abc") = true
    ∧ (handlePost ⟨"abc", "", "", ""⟩
        ⟨some "Bearer wrong", none, none, none, .obj [], none⟩
        "T" 5 [] none).store = ([] : List FireEventRecord) := by
  refine ⟨(claim_C1 ⟨"", "", "", ""⟩ ⟨none, none, none, none, .obj [], none⟩
            "T" 0 [] none 50).1 rfl,
          ((claim_C1 ⟨"abc", "", "", ""⟩
            ⟨some "Bearer abc", none, none, none, .obj [], none⟩
            "T" 0 [] none 50).2.1 (by decide)).mpr rfl, ?_⟩
  have h := (claim_C1 ⟨"abc", "", "", ""⟩
      ⟨some "Bearer wrong", none, none, none, .obj [], none⟩
      "T" 5 [] none 50).2.2 (by decide)
  rw [h.1]

/-- C2 counterexample: for the non-numeric limit parameter `"abc"` the code
computes `Number("abc") = NaN`, which `Math.min` and `Math.max` propagate,
so the effective limit is NaN (`none`) — not the default 50 the claim
states for a non-numeric parameter. -/
theorem claim_C2_counterexample :
    effectiveLimit (some "abc") = none
    ∧ effectiveLimitSpec (some "abc") = some 50 := by
  exact ⟨by decide, by decide⟩

/-- C2 amended: the default 50 applies when the `limit` parameter is absent
or empty (falsy); a present nonempty parameter that coerces to a number is
clamped to [1,200]; every non-NaN effective limit lies in [1,200]; and for
an integer limit n ≥ 1 the list endpoint returns at most n events sorted by
`received_at` descending.  (A present non-numeric parameter yields NaN; what
the Mongo driver does with a NaN limit is outside the source.) -/
theorem claim_C2 (p : Option String) (s : String) (q q0 : ℚ)
    (cfg : Config) (req : Request) (store : List FireEventRecord) (n : ℕ) :
    effectiveLimit none = some 50
    ∧ effectiveLimit (some "") = some 50
    ∧ (s ≠ "" → (JsVal.str s).toNumber = some q0 →
        effectiveLimit (some s) = some (max 1 (min 200 q0)))
    ∧ (effectiveLimit p = some q → 1 ≤ q ∧ q ≤ 200)
    ∧ (1 ≤ n →
        (findRecent store n).length ≤ n
        ∧ List.Sorted recvGe (findRecent store n)
        ∧ (requireAuth cfg.apiKey req.authorization = true →
            handleGet cfg req store none n =
              { status := 200, ok := true
                count := (findRecent store n).length
                events := findRecent store n, error := "", details := "" })) := by
  refine ⟨by decide, by decide, fun hs hq => ?_, fun hq => ?_, fun hn => ?_⟩
  · simp [effectiveLimit, JsVal.truthy, hs, hq]
  · rcases Option.map_eq_some'.mp hq with ⟨q1, _, hq1⟩
    subst hq1
    exact ⟨le_max_left _ _, max_le (by norm_num) (min_le_left _ _)⟩
  · have hn0 : n ≠ 0 := by omega
    have hsorted : List.Sorted recvGe (store.insertionSort recvGe) :=
      List.sorted_insertionSort recvGe store
    have htake : List.Sorted recvGe ((store.insertionSort recvGe).take n) :=
      List.Pairwise.sublist (List.take_sublist n _) hsorted
    refine ⟨?_, ?_, fun hA => ?_⟩
    · simp only [findRecent, hn0, if_false]
      exact List.length_take_le n _
    · simpa [findRecent, hn0] using htake
    · simp [handleGet, hA]

/-- Witness for C2: a numeric limit `"120"` clamps to 120, an empty store
read with limit 1 returns at most one event, and the concrete GET response
is the ok-shape. -/
theorem claim_C2_witness :
    effectiveLimit (some "120") = some 120
    ∧ (findRecent [] 1).length ≤ 1
    ∧ handleGet ⟨"", "", "", ""⟩ ⟨none, none, none, none, .obj [], none⟩ [] none 1 =
        { status := 200, ok := true, count := 0, events := [], error := ""
          details := "" } := by
  have h := claim_C2 (some "120") "120" 120 120 ⟨"", "", "", ""⟩
      ⟨none, none, none, none, .obj [], none⟩ [] 1
  refine ⟨?_, (h.2.2.2.2 (by decide)).1, ?_⟩
  · have h3 := h.2.2.1 (by decide) (by decide)
    rw [h3]
    decide
  · have h5 := (h.2.2.2.2 (by decide)).2.2 (by rfl)
    rw [h5]
    rfl

/-- C3 counterexample: with `best = {label: "", conf: 0}` the code renders
`Label: -` and `Conf: -` (truthiness test), while the claim's reading — label
embedded whenever present, conf formatted whenever numeric — would render
`Label: ` and `Conf: 0.00`. -/
theorem claim_C3_counterexample :
    msgText "T" "0.9" (.obj [("label", .str ""), ("conf", .num 0)]) "" "" ≠
      msgTextSpec "T" "0.9" (.obj [("label", .str ""), ("conf", .num 0)]) "" "" := by
  decide

/-- C3 amended: the built message embeds the timestamp, the score, the
nested `label` when it is truthy (placeholder when absent **or falsy**), the
nested `conf` formatted to two decimal places when it is truthy — a truthy
non-numeric `conf` renders as `"NaN"`, and a falsy `conf` (absent, `0`,
empty) gives the placeholder — and the image reference preferring
`image_url`, then `snapshot_filename`, then a placeholder. -/
theorem claim_C3 (timestamp score : String) (best : JsVal)
    (image_url snapshot_filename : String) :
    msgText timestamp score best image_url snapshot_filename =
      msgTextAmended timestamp score best image_url snapshot_filename := by
  simp only [msgText, msgTextAmended]
  cases h : (best.getField "conf").toNumber <;> simp [toFixed2Opt, h]

/-- C4: `received_at` is server-assigned at insert time (`Date.now`, here
the clock reading `now`) and never client-influenced: every stored record
carries `received_at = now`, and adding a `received_at` field to the request
body changes nothing about the handler's outcome. -/
theorem claim_C4 (cfg : Config) (req : Request) (nowIso : String) (now : ℕ)
    (store : List FireEventRecord) (storeErr : Option String)
    (r : FireEventRecord) (v : JsVal) (fs : List (String × JsVal)) :
    ((handlePost cfg req nowIso now store storeErr).event = some r →
      r.received_at = now)
    ∧ handlePost cfg { req with body := .obj (("received_at", v) :: fs) }
        nowIso now store storeErr =
      handlePost cfg { req with body := .obj fs } nowIso now store storeErr := by
  constructor
  · intro h
    rw [handlePost_event_some h]
    simp [insertEvent]
  · have hb : buildEvent { req with body := .obj (("received_at", v) :: fs) } nowIso
        = buildEvent { req with body := .obj fs } nowIso := by
      apply buildEvent_ext
      intro k hk
      rw [getField_obj_cons]
      simp only [sixKeys, List.mem_cons, List.mem_singleton] at hk
      rcases hk with rfl | rfl | rfl | rfl | rfl | rfl | h0
      · rw [if_neg (by decide)]
      · rw [if_neg (by decide)]
      · rw [if_neg (by decide)]
      · rw [if_neg (by decide)]
      · rw [if_neg (by decide)]
      · rw [if_neg (by decide)]
      · cases h0
    simp [handlePost, hb]

/-- Witness for C4: a concrete store write gets `received_at = 5`, and a
body smuggling `received_at: "1999-01-01"` produces the same outcome as the
body without it. -/
theorem claim_C4_witness :
    ({ id := 0, received_at := 5, timestamp := "T", score := "", best := .null
       snapshot_filename := "", image_url := "", cloudinary_public_id := ""
       ip := "", user_agent := "" } : FireEventRecord).received_at = 5
    ∧ handlePost ⟨"", "", "", ""⟩
        ⟨none, none, none, none, .obj [("received_at", .str "1999-01-01")], none⟩
        "T" 5 [] none =
      handlePost ⟨"", "", "", ""⟩ ⟨none, none, none, none, .obj [], none⟩
        "T" 5 [] none := by
  have h := claim_C4 ⟨"", "", "", ""⟩ ⟨none, none, none, none, .obj [], none⟩
      "T" 5 [] none
      { id := 0, received_at := 5, timestamp := "T", score := "", best := .null
        snapshot_filename := "", image_url := "", cloudinary_public_id := ""
        ip := "", user_agent := "" } (.str "1999-01-01") []
  exact ⟨h.1 rfl, h.2⟩

/-- C5: each plain string field of the stored record (`score`,
`snapshot_filename`, `image_url`, `cloudinary_public_id`) equals the
client-supplied value when that value is a string, and equals `""` when the
client omits it or supplies a non-string value. -/
theorem claim_C5 (cfg : Config) (req : Request) (nowIso : String) (now : ℕ)
    (store : List FireEventRecord) (storeErr : Option String)
    (r : FireEventRecord)
    (h : (handlePost cfg req nowIso now store storeErr).event = some r) :
    ((∀ s, (reqBody req).getField "score" = .str s → r.score = s)
      ∧ (((reqBody req).getField "score").isString = false → r.score = ""))
    ∧ ((∀ s, (reqBody req).getField "snapshot_filename" = .str s →
          r.snapshot_filename = s)
      ∧ (((reqBody req).getField "snapshot_filename").isString = false →
          r.snapshot_filename = ""))
    ∧ ((∀ s, (reqBody req).getField "image_url" = .str s → r.image_url = s)
      ∧ (((reqBody req).getField "image_url").isString = false →
          r.image_url = ""))
    ∧ ((∀ s, (reqBody req).getField "cloudinary_public_id" = .str s →
          r.cloudinary_public_id = s)
      ∧ (((reqBody req).getField "cloudinary_public_id").isString = false →
          r.cloudinary_public_id = "")) := by
  obtain rfl := handlePost_event_some h
  have hsc : (insertEvent store (buildEvent req nowIso) now).1.score
      = strOrEmpty ((reqBody req).getField "score") := by
    simp [insertEvent, buildEvent]
  have hsn : (insertEvent store (buildEvent req nowIso) now).1.snapshot_filename
      = strOrEmpty ((reqBody req).getField "snapshot_filename") := by
    simp [insertEvent, buildEvent]
  have him : (insertEvent store (buildEvent req nowIso) now).1.image_url
      = strOrEmpty ((reqBody req).getField "image_url") := by
    simp [insertEvent, buildEvent]
  have hcl : (insertEvent store (buildEvent req nowIso) now).1.cloudinary_public_id
      = strOrEmpty ((reqBody req).getField "cloudinary_public_id") := by
    simp [insertEvent, buildEvent]
  refine ⟨⟨fun s hs => ?_, fun hn => ?_⟩, ⟨fun s hs => ?_, fun hn => ?_⟩,
          ⟨fun s hs => ?_, fun hn => ?_⟩, ⟨fun s hs => ?_, fun hn => ?_⟩⟩
  · rw [hsc, hs]
    rfl
  · rw [hsc, strOrEmpty_of_not_string hn]
  · rw [hsn, hs]
    rfl
  · rw [hsn, strOrEmpty_of_not_string hn]
  · rw [him, hs]
    rfl
  · rw [him, strOrEmpty_of_not_string hn]
  · rw [hcl, hs]
    rfl
  · rw [hcl, strOrEmpty_of_not_string hn]

/-- Witness for C5: a body with a numeric `score` and string
`snapshot_filename` stores `score = ""` and the filename verbatim. -/
theorem claim_C5_witness :
    ({ id := 0, received_at := 5, timestamp := "T", score := "", best := .null
       snapshot_filename := "s.jpg", image_url := "", cloudinary_public_id := ""
       ip := "", user_agent := "" } : FireEventRecord).score = ""
    ∧ ({ id := 0, received_at := 5, timestamp := "T", score := "", best := .null
         snapshot_filename := "s.jpg", image_url := "", cloudinary_public_id := ""
         ip := "", user_agent := "" } : FireEventRecord).snapshot_filename
        = "s.jpg" := by
  have h := claim_C5 ⟨"", "", "", ""⟩
      ⟨none, none, none, none,
        .obj [("score", .num 7), ("snapshot_filename", .str "s.jpg")], none⟩
      "T" 5 [] none
      { id := 0, received_at := 5, timestamp := "T", score := "", best := .null
        snapshot_filename := "s.jpg", image_url := "", cloudinary_public_id := ""
        ip := "", user_agent := "" } rfl
  exact ⟨h.1.2 rfl, h.2.1.1 "s.jpg" rfl⟩

/-- C6: the stored `timestamp` is the client's value when it is a string and
otherwise the server's current time rendered by `new Date().toISOString()`
(the handler-time reading `nowIso`, an ISO-8601 string by the runtime's
contract). -/
theorem claim_C6 (cfg : Config) (req : Request) (nowIso : String) (now : ℕ)
    (store : List FireEventRecord) (storeErr : Option String)
    (r : FireEventRecord)
    (h : (handlePost cfg req nowIso now store storeErr).event = some r) :
    (∀ s, (reqBody req).getField "timestamp" = .str s → r.timestamp = s)
    ∧ (((reqBody req).getField "timestamp").isString = false →
        r.timestamp = nowIso) := by
  obtain rfl := handlePost_event_some h
  have ht : (insertEvent store (buildEvent req nowIso) now).1.timestamp
      = (match (reqBody req).getField "timestamp" with
         | .str s => s
         | _ => nowIso) := by
    simp [insertEvent, buildEvent]
  constructor
  · intro s hs
    rw [ht, hs]
  · intro hn
    rw [ht]
    cases hv : (reqBody req).getField "timestamp" <;> simp_all [JsVal.isString]

/-- Witness for C6: a numeric `timestamp` in the body is replaced by the
server's ISO time `"2024-05-05T00:00:00.000Z"`. -/
theorem claim_C6_witness :
    ({ id := 0, received_at := 5, timestamp := "2024-05-05T00:00:00.000Z"
       score := "", best := .null, snapshot_filename := "", image_url := ""
       cloudinary_public_id := "", ip := "", user_agent := "" }
      : FireEventRecord).timestamp = "2024-05-05T00:00:00.000Z" := by
  have h := claim_C6 ⟨"", "", "", ""⟩
      ⟨none, none, none, none, .obj [("timestamp", .num 42)], none⟩
      "2024-05-05T00:00:00.000Z" 5 [] none
      { id := 0, received_at := 5, timestamp := "2024-05-05T00:00:00.000Z"
        score := "", best := .null, snapshot_filename := "", image_url := ""
        cloudinary_public_id := "", ip := "", user_agent := "" } rfl
  exact h.2 rfl

/-- C7: the client response to a create-event request is unaffected by the
outbound notification: the response/store pair is produced before and
independently of the WhatsApp outcome, it is the ok-shape whenever the write
succeeded, and a failed notification (for instance a network error) only
appends a `WhatsApp failed` log line. -/
theorem claim_C7 (cfg : Config) (req : Request) (nowIso : String) (now : ℕ)
    (store : List FireEventRecord) (o o₂ : WaOutcome) (m : String) :
    ((fullPostStep cfg req nowIso now store none o).1 =
       handlePost cfg req nowIso now store none)
    ∧ ((fullPostStep cfg req nowIso now store none o).1 =
        (fullPostStep cfg req nowIso now store none o₂).1)
    ∧ (requireAuth cfg.apiKey req.authorization = true →
        (fullPostStep cfg req nowIso now store none o).1.ok = true
        ∧ (fullPostStep cfg req nowIso now store none o).1.status = 200
        ∧ (fullPostStep cfg req nowIso now store none o).1.event =
            some ((insertEvent store (buildEvent req nowIso) now).1))
    ∧ (cfg.waTo ≠ "" → cfg.waPhoneNumberId ≠ "" → cfg.waAccessToken ≠ "" →
        requireAuth cfg.apiKey req.authorization = true →
        (fullPostStep cfg req nowIso now store none (.networkError m)).2 =
          ["❌ WhatsApp failed: " ++ m]) := by
  have hfst : ∀ o3 : WaOutcome,
      (fullPostStep cfg req nowIso now store none o3).1 =
        handlePost cfg req nowIso now store none := by
    intro o3
    cases hd : (handlePost cfg req nowIso now store none).dispatched <;>
      simp [fullPostStep, hd]
  refine ⟨hfst o, (hfst o).trans (hfst o₂).symm, fun hA => ?_, ?_⟩
  · rw [hfst o]
    refine ⟨by simp [handlePost, hA], by simp [handlePost, hA],
            by simp [handlePost, hA]⟩
  · intro hTo hPid hTok hA
    simp [fullPostStep, handlePost, hA, hTo, dispatchLog, sendWhatsAppAlert,
      hPid, hTok]

/-- Witness for C7: with WhatsApp fully configured and an unreachable
endpoint, the concrete create-event exchange still answers ok and only logs
the failure. -/
theorem claim_C7_witness :
    (fullPostStep ⟨"", "pid", "tok", "123"⟩
        ⟨none, none, none, none, .obj [], none⟩ "T" 5 [] none
        (.networkError "boom")).1.ok = true
    ∧ (fullPostStep ⟨"", "pid", "tok", "123"⟩
        ⟨none, none, none, none, .obj [], none⟩ "T" 5 [] none
        (.networkError "boom")).2 = ["❌ WhatsApp failed: boom"] := by
  have h := claim_C7 ⟨"", "pid", "tok", "123"⟩
      ⟨none, none, none, none, .obj [], none⟩ "T" 5 []
      (.networkError "boom") (.response true "{}") "boom"
  exact ⟨(h.2.2.1 rfl).1, h.2.2.2 (by decide) (by decide) (by decide) rfl⟩

/-- C8: a failed store write makes the handler answer the server-error shape
`{ok:false, error, details}` with nothing stored and no dispatch started; a
dispatch can only ever be started when the store write succeeded. -/
theorem claim_C8 (cfg : Config) (req : Request) (nowIso : String) (now : ℕ)
    (store : List FireEventRecord) (m : String) (storeErr : Option String) :
    (requireAuth cfg.apiKey req.authorization = true →
      handlePost cfg req nowIso now store (some m) =
        { status := 500, ok := false, message := ""
          error := "Failed to store event", details := m, event := none
          store := store, dispatched := none, log := [] })
    ∧ ((handlePost cfg req nowIso now store storeErr).dispatched.isSome = true →
        storeErr = none) := by
  constructor
  · intro hA
    simp [handlePost, hA]
  · intro hd
    by_cases hA : requireAuth cfg.apiKey req.authorization = true
    · cases storeErr with
      | none => rfl
      | some m2 => simp [handlePost, hA] at hd
    · simp [handlePost, hA] at hd

/-- Witness for C8: a concrete failing write answers 500 with the thrown
message in `details` and starts no dispatch even with WhatsApp configured. -/
theorem claim_C8_witness :
    handlePost ⟨"", "pid", "tok", "123"⟩ ⟨none, none, none, none, .obj [], none⟩
        "T" 5 [] (some "MongoServerError: down") =
      { status := 500, ok := false, message := ""
        error := "Failed to store event", details := "MongoServerError: down"
        event := none, store := [], dispatched := none, log := [] } := by
  exact (claim_C8 ⟨"", "pid", "tok", "123"⟩
      ⟨none, none, none, none, .obj [], none⟩ "T" 5 []
      "MongoServerError: down" (some "MongoServerError: down")).1 rfl

/-- C9: the stored `best` equals the client value exactly when that value is
object-typed and non-null (a structured object or array), and is stored as
`null` otherwise — absent, `null`, or any non-object value. -/
theorem claim_C9 (cfg : Config) (req : Request) (nowIso : String) (now : ℕ)
    (store : List FireEventRecord) (storeErr : Option String)
    (r : FireEventRecord)
    (h : (handlePost cfg req nowIso now store storeErr).event = some r) :
    (((reqBody req).getField "best").typeofObject = true ∧
        (reqBody req).getField "best" ≠ .null →
      r.best = (reqBody req).getField "best")
    ∧ (¬(((reqBody req).getField "best").typeofObject = true ∧
          (reqBody req).getField "best" ≠ .null) →
      r.best = .null) := by
  obtain rfl := handlePost_event_some h
  have hbest : (insertEvent store (buildEvent req nowIso) now).1.best
      = normBest ((reqBody req).getField "best") := by
    simp [insertEvent, buildEvent]
  constructor
  · intro hob
    rw [hbest, normBest_of_object hob.1 hob.2]
  · intro hno
    rw [hbest, normBest_of_not_object hno]

/-- Witness for C9: a structured `best` object is stored verbatim. -/
theorem claim_C9_witness :
    ({ id := 0, received_at := 5, timestamp := "T", score := ""
       best := .obj [("label", .str "fire")], snapshot_filename := ""
       image_url := "", cloudinary_public_id := "", ip := ""
       user_agent := "" } : FireEventRecord).best
      = JsVal.obj [("label", .str "fire")] := by
  have h := claim_C9 ⟨"", "", "", ""⟩
      ⟨none, none, none, none, .obj [("best", .obj [("label", .str "fire")])], none⟩
      "T" 5 [] none
      { id := 0, received_at := 5, timestamp := "T", score := ""
        best := .obj [("label", .str "fire")], snapshot_filename := ""
        image_url := "", cloudinary_public_id := "", ip := ""
        user_agent := "" } rfl
  exact h.1 ⟨rfl, fun hx => JsVal.noConfusion hx⟩

/-- C10: the stored record is built from exactly the nine FireEvent fields —
`FireEventRecord` has precisely `id`/`received_at` (server-assigned) plus
the six normalized body fields and the two header-derived ones — and every
other body field is discarded: two bodies agreeing on the six read keys
produce identical handler outcomes, whatever else they carry. -/
theorem claim_C10 (cfg : Config) (req : Request) (nowIso : String) (now : ℕ)
    (store : List FireEventRecord) (storeErr : Option String)
    (fs gs : List (String × JsVal))
    (h : ∀ k ∈ sixKeys, (JsVal.obj fs).getField k = (JsVal.obj gs).getField k) :
    handlePost cfg { req with body := .obj fs } nowIso now store storeErr =
      handlePost cfg { req with body := .obj gs } nowIso now store storeErr := by
  have hb := @buildEvent_ext req nowIso fs gs h
  simp [handlePost, hb]

/-- Witness for C10: a body carrying an extra `extra_field` behaves exactly
like the same body without it. -/
theorem claim_C10_witness :
    handlePost ⟨"", "", "", ""⟩
        ⟨none, none, none, none,
          .obj [("timestamp", .str "TT"), ("extra_field", .num 9)], none⟩
        "T" 5 [] none =
      handlePost ⟨"", "", "", ""⟩
        ⟨none, none, none, none, .obj [("timestamp", .str "TT")], none⟩
        "T" 5 [] none := by
  exact claim_C10 ⟨"", "", "", ""⟩ ⟨none, none, none, none, .obj [], none⟩
      "T" 5 [] none
      [("timestamp", .str "TT"), ("extra_field", .num 9)]
      [("timestamp", .str "TT")]
      (by
        intro k hk
        simp only [sixKeys, List.mem_cons, List.mem_singleton] at hk
        rcases hk with rfl | rfl | rfl | rfl | rfl | rfl | h0
        · rfl
        · rfl
        · rfl
        · rfl
        · rfl
        · rfl
        · cases h0)

end FireMongo
